import Mathlib

set_option maxHeartbeats 1000000

namespace Watersoft

/-- Values that can appear in the JSON-derived Python dictionaries this
integration passes around: `None`, booleans, integers, strings, lists and
string-keyed dictionaries.  JSON floating-point numbers do not occur in any
field this development reasons about and are outside the model. -/
inductive PyVal where
  | none
  | bool (b : Bool)
  | int (n : Int)
  | str (s : String)
  | list (xs : List PyVal)
  | dict (xs : List (String × PyVal))

/-- A Python dictionary with string keys, as an association list in insertion
order (Python dicts preserve insertion order and have unique keys). -/
abbrev PyDict := List (String × PyVal)

/-- Python truthiness of a value (`bool(v)`): `None`, `False`, `0`, `""`,
`[]` and `{}` are falsy, everything else is truthy. -/
def pyTruthy : PyVal → Bool
  | .none => false
  | .bool b => b
  | .int n => n != 0
  | .str s => s != ""
  | .list xs => !xs.isEmpty
  | .dict xs => !xs.isEmpty

/-- The Python type name of a value, as used in exception messages. -/
def pyTypeName : PyVal → String
  | .none => "NoneType"
  | .bool _ => "bool"
  | .int _ => "int"
  | .str _ => "str"
  | .list _ => "list"
  | .dict _ => "dict"

/-- `d.get(k)` returning `Option`: the value stored under key `k`, if any. -/
def pyGet? (d : PyDict) (k : String) : Option PyVal :=
  (d.find? (fun kv => kv.1 = k)).map (fun kv => kv.2)

/-- Python `d.get(k, default)`: the value stored under `k`, or `default`. -/
def pyGetD (d : PyDict) (k : String) (default : PyVal) : PyVal :=
  (pyGet? d k).getD default

/-- Python `d[k] = v` on a dict represented as an association list: replace
the value in place if the key is present, otherwise append the new pair. -/
def dictInsert (d : List (String × α)) (k : String) (v : α) : List (String × α) :=
  match d with
  | [] => [(k, v)]
  | (k2, v2) :: rest => if k2 = k then (k2, v) :: rest else (k2, v2) :: dictInsert rest k v

mutual

/-- Python `repr(v)` (approximated: string escaping inside quotes is not
modelled, no claim depends on it). -/
def pyRepr : PyVal → String
  | .none => "None"
  | .bool b => if b then "True" else "False"
  | .int n => toString n
  | .str s => "\x27" ++ s ++ "\x27"
  | .list xs => "[" ++ pyReprList xs ++ "]"
  | .dict xs => "\x7b" ++ pyReprDict xs ++ "\x7d"

/-- Comma-separated reprs of the elements of a list. -/
def pyReprList : List PyVal → String
  | [] => ""
  | [x] => pyRepr x
  | x :: rest => pyRepr x ++ ", " ++ pyReprList rest

/-- Comma-separated quoted key and value reprs of the items of a dict. -/
def pyReprDict : List (String × PyVal) → String
  | [] => ""
  | [(k, v)] => "\x27" ++ k ++ "\x27: " ++ pyRepr v
  | (k, v) :: rest => "\x27" ++ k ++ "\x27: " ++ pyRepr v ++ ", " ++ pyReprDict rest

end

/-- Python `str(v)`: identity on strings, `repr` otherwise. -/
def pyStr : PyVal → String
  | .str s => s
  | v => pyRepr v

/-- The exceptions that the modelled code can raise or catch.  The four
typed integration errors mirror `RainsoftApiError` and its subclasses plus
the `UpdateFailed` type of Home Assistant; `attributeError` and `typeError` model the
corresponding Python built-ins.  The payload is the `str()` of the exception. -/
inductive PyExc where
  | rainsoftAuth (msg : String)
  | rainsoftConnection (msg : String)
  | rainsoftApi (msg : String)
  | updateFailedExc (msg : String)
  | attributeError (msg : String)
  | typeError (msg : String)
  deriving DecidableEq, Repr

/-- `str(exc)` of a modelled exception. -/
def pyExcMsg : PyExc → String
  | .rainsoftAuth m => m
  | .rainsoftConnection m => m
  | .rainsoftApi m => m
  | .updateFailedExc m => m
  | .attributeError m => m
  | .typeError m => m

/-- Whether `pat` occurs in `cs` starting at the head. -/
def listStartsWith [DecidableEq α] : List α → List α → Bool
  | _, [] => true
  | [], _ :: _ => false
  | c :: cs, p :: ps => c = p && listStartsWith cs ps

/-- Whether `pat` occurs somewhere inside `cs` as a contiguous run. -/
def listHasRun [DecidableEq α] (cs pat : List α) : Bool :=
  match cs with
  | [] => pat.isEmpty
  | _ :: rest => listStartsWith cs pat || listHasRun rest pat

/-- Python `pat in s` for strings: substring containment. -/
def strContains (s pat : String) : Bool :=
  listHasRun s.toList pat.toList

/-- Replace every occurrence of the character `pat` in `cs` by `rep`. -/
def listReplaceChar (cs : List Char) (pat : Char) (rep : List Char) : List Char :=
  match cs with
  | [] => []
  | c :: rest => (if c = pat then rep else [c]) ++ listReplaceChar rest pat rep

/-- Python `s.replace(pat, rep)` for a one-character pattern (the only shape
of replacement the source performs: `date_str.replace("Z", "+00:00")`). -/
def strReplace1 (s : String) (pat : Char) (rep : String) : String :=
  String.mk (listReplaceChar s.toList pat rep.toList)

/-- ASCII lower-casing of one character (Python `str.lower` restricted to
ASCII; no status or date string in this development is non-ASCII). -/
def charLower (c : Char) : Char :=
  if 'A' ≤ c && c ≤ 'Z' then Char.ofNat (c.toNat + 32) else c

/-- ASCII `s.lower()`. -/
def strLower (s : String) : String :=
  String.mk (s.toList.map charLower)

/-- Python `v.lower()`: defined for strings, an `AttributeError` otherwise. -/
def pyLower : PyVal → Except PyExc String
  | .str s => .ok (strLower s)
  | v => .error (.attributeError ("\x27" ++ pyTypeName v ++ "\x27 object has no attribute \x27lower\x27"))

/-- Python `v < k` for an integer right-hand side: defined for ints and
bools (bool is an int subtype), a `TypeError` for every other type. -/
def pyLtInt (v : PyVal) (k : Int) : Except PyExc Bool :=
  match v with
  | .int n => .ok (n < k)
  | .bool b => .ok ((if b then (1 : Int) else 0) < k)
  | w => .error (.typeError ("\x27<\x27 not supported between instances of \x27" ++ pyTypeName w ++ "\x27 and \x27int\x27"))

/-- Numeric value of an ASCII digit character. -/
def digitVal (c : Char) : Nat := c.toNat - '0'.toNat

/-- Continue parsing a Python integer literal after at least one digit has
been read: further digits, with single underscores allowed between digits. -/
def parseDigitsAux : List Char → Nat → Option Nat
  | [], acc => some acc
  | '_' :: c :: rest, acc =>
      if c.isDigit then parseDigitsAux rest (acc * 10 + digitVal c) else Option.none
  | ['_'], _ => Option.none
  | c :: rest, acc =>
      if c.isDigit then parseDigitsAux rest (acc * 10 + digitVal c) else Option.none

/-- Parse a nonempty run of ASCII digits with single underscores between
digits (the digit-part grammar of a Python integer literal). -/
def parseDigitsU : List Char → Option Nat
  | c :: rest => if c.isDigit then parseDigitsAux rest (digitVal c) else Option.none
  | [] => Option.none

/-- Leading and trailing ASCII whitespace stripped, as `int(str)` allows. -/
def stripWs (cs : List Char) : List Char :=
  ((cs.dropWhile Char.isWhitespace).reverse.dropWhile Char.isWhitespace).reverse

/-- Python `int(s)` for a string argument: optional surrounding whitespace,
optional sign, then a digit run (with single underscores between digits);
`Option.none` models the `ValueError` on any other shape. -/
def pyStrToInt? (s : String) : Option Int :=
  match stripWs s.toList with
  | '+' :: rest => (parseDigitsU rest).map Int.ofNat
  | '-' :: rest => (parseDigitsU rest).map (fun n => -(n : Int))
  | rest => (parseDigitsU rest).map Int.ofNat

/-- Python `int(v)`: ints unchanged, bools as 0/1, strings parsed (a
`ValueError` on failure), and a `TypeError` for `None`, lists and dicts. -/
def pyIntConv : PyVal → Except PyExc Int
  | .int n => .ok n
  | .bool b => .ok (if b then 1 else 0)
  | .str s =>
      match pyStrToInt? s with
      | some n => .ok n
      | Option.none => .error (.typeError ("invalid literal for int() with base 10: \x27" ++ s ++ "\x27"))
  | v => .error (.typeError ("int() argument must be a string or a number, not \x27" ++ pyTypeName v ++ "\x27"))

/-- `RainsoftApiClient._safe_int`: `None` maps to the default, otherwise
`int(value)` is attempted and `ValueError`/`TypeError` are caught, yielding
the default. -/
def safe_int (value : PyVal) (default : Int := 0) : Int :=
  match value with
  | .none => default
  | v =>
      match pyIntConv v with
      | .ok n => n
      | .error _ => default

/-- The typed errors `_request` can surface, mirroring `RainsoftAuthError`,
`RainsoftApiError` and `RainsoftConnectionError` with their messages. -/
inductive ReqErr where
  | authError (msg : String)
  | apiError (msg : String)
  | connectionError (msg : String)
  deriving DecidableEq, Repr

/-- The outcome of one HTTP attempt against the endpoint: a response with a
status code and a JSON-parse result for the body (`Except.error m` models a
body that fails to parse, with the message of the parse error), or a transport
failure (`aiohttp.ClientError` with its message, or a timeout). -/
inductive HttpAttempt where
  | resp (status : Nat) (body : Except String PyVal)
  | clientError (msg : String)
  | timeout

/-- The outcome of the `authenticate()` call made inside `_request` on a 400:
success stores a fresh token; failure raises a typed error (`authenticate`
only ever raises `RainsoftAuthError` or `RainsoftConnectionError`). -/
inductive AuthOutcome where
  | success (newToken : String)
  | failure (e : ReqErr)

/-- What one `_request` call did: its result, how many HTTP attempts it made
against the endpoint, how many times it called `authenticate()`, and the
token header value used on the retry attempt, if a retry happened. -/
structure RequestTrace where
  result : Except ReqErr PyVal
  attempts : Nat
  reauths : Nat
  retryToken : Option String

/-- The non-400 status handling of `_request`: 401 is an auth failure, 404 a
missing endpoint, 5xx a server error, any other non-200 a generic API error;
on 200 the parsed JSON is returned and a parse failure is an API error. -/
def handle_status (endpoint : String) (status : Nat) (body : Except String PyVal) : Except ReqErr PyVal :=
  if status = 401 then .error (.authError "Unauthorized - invalid credentials")
  else if status = 404 then .error (.apiError ("Endpoint not found: " ++ endpoint))
  else if status ≥ 500 then .error (.connectionError ("Server error: " ++ toString status))
  else if status ≠ 200 then .error (.apiError ("API request failed with status " ++ toString status))
  else
    match body with
    | .ok j => .ok j
    | .error m => .error (.apiError ("Invalid JSON response: " ++ m))

/-- `RainsoftApiClient._request`, shallowly embedded over the outcomes of the
at most two HTTP attempts and the at most one `authenticate()` call it can
make.  A transport failure on either attempt is caught by the outer handlers
and surfaced as a connection error; a 400 on an authenticated call triggers
one re-authentication and one retry, whose non-200 statuses become an auth
error and whose 200 body is parsed as JSON; every other first-attempt status
goes through `handle_status`. -/
def request (authenticated : Bool) (endpoint : String)
    (first : HttpAttempt) (auth : AuthOutcome) (retry : HttpAttempt) : RequestTrace :=
  match first with
  | .clientError m =>
      ⟨.error (.connectionError ("Connection failed: " ++ m)), 1, 0, Option.none⟩
  | .timeout => ⟨.error (.connectionError "Request timeout"), 1, 0, Option.none⟩
  | .resp status body =>
      if status = 400 ∧ authenticated then
        match auth with
        | .failure e => ⟨.error e, 1, 1, Option.none⟩
        | .success newToken =>
            match retry with
            | .clientError m =>
                ⟨.error (.connectionError ("Connection failed: " ++ m)), 2, 1, some newToken⟩
            | .timeout => ⟨.error (.connectionError "Request timeout"), 2, 1, some newToken⟩
            | .resp rs rbody =>
                if rs ≠ 200 then
                  ⟨.error (.authError ("Authentication retry failed with status " ++ toString rs)),
                    2, 1, some newToken⟩
                else
                  match rbody with
                  | .ok j => ⟨.ok j, 2, 1, some newToken⟩
                  | .error m =>
                      ⟨.error (.apiError ("Invalid JSON response: " ++ m)), 2, 1, some newToken⟩
      else ⟨handle_status endpoint status body, 1, 0, Option.none⟩

/-- The dictionary literal built by
`RainsoftDataUpdateCoordinator._normalize_device_data` before the
`regeneration_active` key is added: API listing fields mapped to the
snake-case record fields, with the defaults the source gives them. -/
def normalize_base (device : PyDict) : PyDict :=
  [("id", pyGetD device "id" PyVal.none),
   ("device_name", pyGetD device "name" (PyVal.str "Rainsoft Water Softener")),
   ("model", pyGetD device "model" PyVal.none),
   ("serial_number", pyGetD device "serialNumber" PyVal.none),
   ("firmware_version", PyVal.none),
   ("salt_level", pyGetD device "saltLbs" (PyVal.int 0)),
   ("capacity_remaining", pyGetD device "capacityRemaining" (PyVal.int 0)),
   ("system_status", pyGetD device "systemStatusName" (PyVal.str "unknown")),
   ("last_regeneration", PyVal.none),
   ("next_regeneration", pyGetD device "regenTime" PyVal.none),
   ("location_id", pyGetD device "location_id" PyVal.none),
   ("location_name", pyGetD device "location_name" PyVal.none)]

/-- `RainsoftDataUpdateCoordinator._normalize_device_data`: build the mapped
record, then compute `regeneration_active` as whether the lowercased status
contains "regenerat" (`.lower()` raises an `AttributeError` when the stored
status is a truthy non-string, which propagates out of the method). -/
def normalize_device_data (device : PyDict) : Except PyExc PyDict :=
  match (if pyTruthy (pyGetD (normalize_base device) "system_status" PyVal.none) then
          pyLower (pyGetD (normalize_base device) "system_status" PyVal.none)
        else .ok "") with
  | .error e => .error e
  | .ok lower =>
      .ok (dictInsert (normalize_base device) "regeneration_active"
        (.bool (strContains lower "regenerat")))

/-- The committed coordinator snapshot: device id (as `str(id)`) to
normalized record, in insertion order. -/
abbrev Snapshot := List (String × PyDict)

/-- The per-device loop of `_async_update_data`: skip entries whose `id` is
falsy, normalize the rest and store them under `str(id)`. -/
def update_loop : List PyDict → Snapshot → Except PyExc Snapshot
  | [], acc => .ok acc
  | d :: rest, acc =>
      if pyTruthy (pyGetD d "id" PyVal.none) then
        match normalize_device_data d with
        | .error e => .error e
        | .ok n => update_loop rest (dictInsert acc (pyStr (pyGetD d "id" PyVal.none)) n)
      else update_loop rest acc

/-- The body of the `try` block of `_async_update_data`, given the device
list returned by `get_devices`: an empty list commits an empty snapshot,
otherwise the per-device loop runs and an empty resulting map raises
`UpdateFailed("No device data available")` (an exception that is itself
subject to the `except` clauses of this same method). -/
def update_body (devices : List PyDict) : Except PyExc Snapshot :=
  if devices.isEmpty then .ok []
  else
    match update_loop devices [] with
    | .error e => .error e
    | .ok dd => if dd.isEmpty then .error (.updateFailedExc "No device data available") else .ok dd

/-- The errors `_async_update_data` surfaces to Home Assistant:
`ConfigEntryAuthFailed` (fatal, re-authentication required) or
`UpdateFailed` (transient). -/
inductive UpdateError where
  | configEntryAuthFailed (msg : String)
  | updateFailed (msg : String)
  deriving DecidableEq, Repr

/-- The `except` clauses of `_async_update_data`, in source order:
`RainsoftAuthError` becomes `ConfigEntryAuthFailed`, `RainsoftConnectionError`
and `RainsoftApiError` become `UpdateFailed` with a classifying message, and
the final `except Exception` wraps everything else — including the very
own inner `UpdateFailed` — as `UpdateFailed("Unexpected error: ...")`. -/
def classify_exc : PyExc → UpdateError
  | .rainsoftAuth _ => .configEntryAuthFailed "Authentication failed"
  | .rainsoftConnection m => .updateFailed ("Connection error: " ++ m)
  | .rainsoftApi m => .updateFailed ("API error: " ++ m)
  | e => .updateFailed ("Unexpected error: " ++ pyExcMsg e)

/-- `RainsoftDataUpdateCoordinator._async_update_data`, over the outcome of
the `get_devices` call: the try-block body runs and any escaping exception is
re-classified by the `except` clauses. -/
def async_update_data (devicesResult : Except PyExc (List PyDict)) : Except UpdateError Snapshot :=
  match (devicesResult.bind update_body) with
  | .ok snap => .ok snap
  | .error e => .error (classify_exc e)

/-- `RainsoftBinarySensor._get_device_data` (and its sensor twin):
`coordinator.data.get(device_id, {})`. -/
def get_device_data (snap : Snapshot) (deviceId : String) : PyDict :=
  ((snap.find? (fun kv => kv.1 = deviceId)).map (fun kv => kv.2)).getD []

/-- `RainsoftSystemAlertSensor.is_on`: a falsy status reports no alert;
otherwise any status other than "normal" (case-insensitively) is an alert.
`.lower()` on a truthy non-string status would raise an `AttributeError`. -/
def alert_is_on (data : PyDict) : Except PyExc Bool :=
  let status := pyGetD data "system_status" (PyVal.str "normal")
  if pyTruthy status then
    match status with
    | .str s => .ok (!(strLower s == "normal"))
    | v => .error (.attributeError ("\x27" ++ pyTypeName v ++ "\x27 object has no attribute \x27lower\x27"))
  else .ok false

/-- `SALT_LOW_THRESHOLD` from const.py. -/
def SALT_LOW_THRESHOLD : Int := 20

/-- `RainsoftSaltLowSensor.is_on`: `data.get("salt_level", 100) <
SALT_LOW_THRESHOLD` (a comparison that would raise a `TypeError` on a
non-numeric stored salt value). -/
def salt_low_is_on (data : PyDict) : Except PyExc Bool :=
  pyLtInt (pyGetD data "salt_level" (PyVal.int 100)) SALT_LOW_THRESHOLD

/-- `RainsoftRegenerationSensor.is_on`: `data.get("regeneration_active",
False)`, returned as-is. -/
def regeneration_is_on (data : PyDict) : PyVal :=
  pyGetD data "regeneration_active" (PyVal.bool false)

/-- A Python `datetime.date`: the result of truncating a parsed date-time to
its date component. -/
structure PyDate where
  year : Nat
  month : Nat
  day : Nat
  deriving DecidableEq, Repr

/-- Gregorian leap-year rule, as `datetime` validates days. -/
def isLeapYear (y : Nat) : Bool :=
  y % 4 == 0 && (y % 100 != 0 || y % 400 == 0)

/-- Days in a month of a given year. -/
def daysInMonth (y m : Nat) : Nat :=
  if m = 2 then (if isLeapYear y then 29 else 28)
  else if m = 4 ∨ m = 6 ∨ m = 9 ∨ m = 11 then 30
  else 31

/-- Whether year/month/day form a valid `datetime.date`
(`MINYEAR = 1`, `MAXYEAR = 9999`). -/
def validDate (y m d : Nat) : Bool :=
  1 ≤ y && y ≤ 9999 && 1 ≤ m && m ≤ 12 && 1 ≤ d && d ≤ daysInMonth y m

/-- Read two ASCII digits off the front, returning their value and the rest. -/
def twoDigits? : List Char → Option (Nat × List Char)
  | a :: b :: rest =>
      if a.isDigit && b.isDigit then some (10 * digitVal a + digitVal b, rest) else Option.none
  | _ => Option.none

/-- Parse the ISO calendar-date forms `YYYY-MM-DD` and `YYYYMMDD` accepted by
the CPython `date.fromisoformat` (week-date forms are outside the modelled
subset; no value in this development uses them). -/
def dateChars? (cs : List Char) : Option PyDate :=
  match cs with
  | [a, b, c, d, '-', e, f, '-', g, h] =>
      if [a, b, c, d, e, f, g, h].all Char.isDigit then
        let y := 1000 * digitVal a + 100 * digitVal b + 10 * digitVal c + digitVal d
        let m := 10 * digitVal e + digitVal f
        let dy := 10 * digitVal g + digitVal h
        if validDate y m dy then some ⟨y, m, dy⟩ else Option.none
      else Option.none
  | [a, b, c, d, e, f, g, h] =>
      if [a, b, c, d, e, f, g, h].all Char.isDigit then
        let y := 1000 * digitVal a + 100 * digitVal b + 10 * digitVal c + digitVal d
        let m := 10 * digitVal e + digitVal f
        let dy := 10 * digitVal g + digitVal h
        if validDate y m dy then some ⟨y, m, dy⟩ else Option.none
      else Option.none
  | _ => Option.none

/-- `datetime.date.fromisoformat`. -/
def date_fromisoformat (s : String) : Option PyDate :=
  dateChars? s.toList

/-- Consume an optional fractional-seconds part (`.` or `,` then at least one
digit) off the front of the remaining time characters. -/
def dropFraction : List Char → Option (List Char)
  | p :: rest =>
      if p = '.' ∨ p = ',' then
        let digits := rest.takeWhile Char.isDigit
        if digits.isEmpty then Option.none else some (rest.dropWhile Char.isDigit)
      else some (p :: rest)
  | [] => some []

/-- Parse `HH[:MM[:SS[.ffffff]]]` off the front of the characters, validating
ranges, and return what follows (the offset part, or nothing). -/
def timeCore? (cs : List Char) : Option (List Char) :=
  match twoDigits? cs with
  | Option.none => Option.none
  | some (hh, r1) =>
      if hh > 23 then Option.none
      else
        match r1 with
        | ':' :: r2 =>
            match twoDigits? r2 with
            | Option.none => Option.none
            | some (mm, r3) =>
                if mm > 59 then Option.none
                else
                  match r3 with
                  | ':' :: r4 =>
                      match twoDigits? r4 with
                      | Option.none => Option.none
                      | some (ss, r5) =>
                          if ss > 59 then Option.none else dropFraction r5
                  | _ => some r3
        | _ => some r1

/-- Validate the UTC-offset tail of an ISO time: empty, `Z`, or a signed
`HH[:MM[:SS]]` offset. -/
def offsetOk (cs : List Char) : Bool :=
  match cs with
  | [] => true
  | ['Z'] => true
  | c :: rest =>
      (c = '+' || c = '-') &&
        match timeCore? rest with
        | some [] => true
        | _ => false

/-- Validate a full ISO time-with-optional-offset string. -/
def timeOk (cs : List Char) : Bool :=
  match timeCore? cs with
  | some rest => offsetOk rest
  | Option.none => false

/-- `datetime.datetime.fromisoformat`, truncated to the date it yields (the
only use the sensors make of it): the first ten characters must form a
calendar date; anything further is one separator character followed by a
valid time (colon-separated forms with optional fraction and offset, the
subset CPython accepts that the inputs of this repository exercise). -/
def datetime_fromisoformat_date (s : String) : Option PyDate :=
  let cs := s.toList
  match dateChars? (cs.take 10) with
  | Option.none => Option.none
  | some d =>
      match cs.drop 10 with
      | [] => some d
      | _sep :: timecs => if timeOk timecs then some d else Option.none

/-- The shared body of `RainsoftLastRegenerationSensor.native_value` and
`RainsoftNextRegenerationSensor.native_value`, over the stored field value:
a falsy value yields no date; a string containing `T` or a space goes through
`datetime.fromisoformat` after `Z` is replaced by `+00:00` and is truncated
to a date, any other string through `date.fromisoformat`, with `ValueError`
and `AttributeError` caught (yielding no date).  A truthy non-string either
hits the membership test (`TypeError` on non-containers, uncaught) or, for a
container holding `T` or a space, fails at `.replace` with a caught
`AttributeError`. -/
def regen_date_native_value (key : String) (data : PyDict) : Except PyExc (Option PyDate) :=
  let v := pyGetD data key PyVal.none
  if pyTruthy v then
    match v with
    | .str s =>
        if strContains s "T" || strContains s " " then
          .ok (datetime_fromisoformat_date (strReplace1 s 'Z' "+00:00"))
        else .ok (date_fromisoformat s)
    | .list xs =>
        if xs.any (fun e => match e with | .str t => t = "T" ∨ t = " " | _ => False) then
          .ok Option.none
        else .error (.typeError "fromisoformat: argument must be str")
    | .dict kvs =>
        if kvs.any (fun kv => kv.1 = "T" ∨ kv.1 = " ") then .ok Option.none
        else .error (.typeError "fromisoformat: argument must be str")
    | w => .error (.typeError ("argument of type \x27" ++ pyTypeName w ++ "\x27 is not iterable"))
  else .ok Option.none

/-- `RainsoftLastRegenerationSensor.native_value` over the device data. -/
def last_regeneration_native_value (data : PyDict) : Except PyExc (Option PyDate) :=
  regen_date_native_value "last_regeneration" data

/-- `RainsoftNextRegenerationSensor.native_value` over the device data. -/
def next_regeneration_native_value (data : PyDict) : Except PyExc (Option PyDate) :=
  regen_date_native_value "next_regeneration" data

/-- C1: On an authenticated request whose first response has status 400, the
client re-authenticates exactly once and, when re-authentication succeeds,
retries the same request exactly once with the refreshed token; a non-200
retry status raises `RainsoftAuthError`, while a 200 retry returns the
parsed JSON body of the retried response; and no execution of `_request` ever
performs a second re-authentication or a second retry. -/
theorem c1_reauth_once_retry_once (ep : String) (b : Except String PyVal) :
    (∀ auth retry, (request true ep (.resp 400 b) auth retry).reauths = 1) ∧
    (∀ tok retry, (request true ep (.resp 400 b) (.success tok) retry).attempts = 2 ∧
      (request true ep (.resp 400 b) (.success tok) retry).retryToken = some tok) ∧
    (∀ tok rs rb, rs ≠ 200 →
      (request true ep (.resp 400 b) (.success tok) (.resp rs rb)).result =
        .error (.authError ("Authentication retry failed with status " ++ toString rs))) ∧
    (∀ tok j, (request true ep (.resp 400 b) (.success tok) (.resp 200 (.ok j))).result = .ok j) ∧
    (∀ authed ep2 first auth retry,
      (request authed ep2 first auth retry).reauths ≤ 1 ∧
      (request authed ep2 first auth retry).attempts ≤ 2) := by
  refine ⟨?_, ?_, ?_, ?_, ?_⟩
  · intro auth retry
    cases auth with
    | failure e => rfl
    | success tok =>
      cases retry with
      | clientError m => rfl
      | timeout => rfl
      | resp rs rb =>
        by_cases h : rs = 200
        · subst h; cases rb <;> rfl
        · simp [request, h]
  · intro tok retry
    cases retry with
    | clientError m => exact ⟨rfl, rfl⟩
    | timeout => exact ⟨rfl, rfl⟩
    | resp rs rb =>
      by_cases h : rs = 200
      · subst h; cases rb <;> exact ⟨rfl, rfl⟩
      · constructor <;> simp [request, h]
  · intro tok rs rb hrs
    simp [request, hrs]
  · intro tok j
    simp [request]
  · intro authed ep2 first auth retry
    refine ⟨?_, ?_⟩ <;>
      (cases first with
       | clientError m => simp [request]
       | timeout => simp [request]
       | resp s b =>
         by_cases h : s = 400 ∧ authed = true
         · cases auth with
           | failure e => simp [request, h]
           | success tok =>
             cases retry with
             | clientError m => simp [request, h]
             | timeout => simp [request, h]
             | resp rs rb =>
               by_cases h2 : rs = 200
               · subst h2; cases rb <;> simp [request, h]
               · simp [request, h, h2]
         · simp [request, h])

/-- C1 witness: a concrete authenticated 400 followed by a 500 on the retry
yields the auth-retry failure, via the theorem. -/
theorem c1_witness :
    (request true "/customer" (.resp 400 (.ok PyVal.none)) (.success "tok2")
        (.resp 500 (.ok PyVal.none))).result =
      .error (.authError ("Authentication retry failed with status " ++ toString 500)) :=
  (c1_reauth_once_retry_once "/customer" (.ok PyVal.none)).2.2.1 "tok2" 500 (.ok PyVal.none)
    (by decide)

/-- C2: Outside the 400-on-authenticated-call case, `_request` maps status
401 to `RainsoftAuthError`, 404 to `RainsoftApiError`, every status at least
500 to `RainsoftConnectionError`, and any other non-200 status to
`RainsoftApiError`; on status 200 an unparsable body raises
`RainsoftApiError`, and a transport error or timeout raises
`RainsoftConnectionError`. -/
theorem c2_status_mapping (authed : Bool) (ep : String) (auth : AuthOutcome)
    (retry : HttpAttempt) :
    (∀ b, (request authed ep (.resp 401 b) auth retry).result =
      .error (.authError "Unauthorized - invalid credentials")) ∧
    (∀ b, (request authed ep (.resp 404 b) auth retry).result =
      .error (.apiError ("Endpoint not found: " ++ ep))) ∧
    (∀ s b, 500 ≤ s → (request authed ep (.resp s b) auth retry).result =
      .error (.connectionError ("Server error: " ++ toString s))) ∧
    (∀ s b, ¬(s = 400 ∧ authed = true) → s ≠ 200 → s ≠ 401 → s ≠ 404 → s < 500 →
      (request authed ep (.resp s b) auth retry).result =
        .error (.apiError ("API request failed with status " ++ toString s))) ∧
    (∀ j, (request authed ep (.resp 200 (.ok j)) auth retry).result = .ok j) ∧
    (∀ m, (request authed ep (.resp 200 (.error m)) auth retry).result =
      .error (.apiError ("Invalid JSON response: " ++ m))) ∧
    (∀ m, (request authed ep (.clientError m) auth retry).result =
      .error (.connectionError ("Connection failed: " ++ m))) ∧
    ((request authed ep .timeout auth retry).result =
      .error (.connectionError "Request timeout")) := by
  refine ⟨?_, ?_, ?_, ?_, ?_, ?_, ?_, ?_⟩
  · intro b; simp [request, handle_status]
  · intro b; simp [request, handle_status]
  · intro s b hs
    have h400 : ¬(s = 400 ∧ authed = true) := by rintro ⟨rfl, _⟩; omega
    have h401 : s ≠ 401 := by omega
    have h404 : s ≠ 404 := by omega
    simp only [request]
    rw [if_neg (by simpa using h400)]
    simp [handle_status, h401, h404, hs]
  · intro s b h400 h200 h401 h404 h500
    simp only [request]
    rw [if_neg (by simpa using h400)]
    simp [handle_status, h200, h401, h404]
    omega
  · intro j
    simp only [request]
    rw [if_neg (by simp)]
    simp [handle_status]
  · intro m
    simp only [request]
    rw [if_neg (by simp)]
    simp [handle_status]
  · intro m; simp [request]
  · simp [request]

/-- C2 witness: concrete instances of the mapping, via the theorem. -/
theorem c2_witness :
    (request false "/login" (.resp 503 (.ok PyVal.none)) (.failure (.authError "x"))
        .timeout).result = .error (.connectionError ("Server error: " ++ toString 503)) :=
  (c2_status_mapping false "/login" (.failure (.authError "x")) .timeout).2.2.1 503
    (.ok PyVal.none) (by decide)

/-- C3: The coordinator never propagates a raw unclassified error from a poll
cycle: `RainsoftAuthError` surfaces as `ConfigEntryAuthFailed`,
`RainsoftConnectionError` and `RainsoftApiError` surface as `UpdateFailed`
with a classifying message, every other exception — including the inner
`UpdateFailed` itself — is wrapped as `UpdateFailed` with its message
preserved, and every error the cycle can surface is one of these two
Home Assistant error types. -/
theorem c3_error_classification :
    (∀ m, async_update_data (.error (.rainsoftAuth m)) =
      .error (.configEntryAuthFailed "Authentication failed")) ∧
    (∀ m, async_update_data (.error (.rainsoftConnection m)) =
      .error (.updateFailed ("Connection error: " ++ m))) ∧
    (∀ m, async_update_data (.error (.rainsoftApi m)) =
      .error (.updateFailed ("API error: " ++ m))) ∧
    (∀ m, async_update_data (.error (.attributeError m)) =
      .error (.updateFailed ("Unexpected error: " ++ m))) ∧
    (∀ m, async_update_data (.error (.typeError m)) =
      .error (.updateFailed ("Unexpected error: " ++ m))) ∧
    (∀ m, async_update_data (.error (.updateFailedExc m)) =
      .error (.updateFailed ("Unexpected error: " ++ m))) ∧
    (∀ r e, async_update_data r = .error e →
      (∃ m, e = .configEntryAuthFailed m) ∨ (∃ m, e = .updateFailed m)) := by
  refine ⟨fun m => rfl, fun m => rfl, fun m => rfl, fun m => rfl, fun m => rfl, fun m => rfl, ?_⟩
  intro r e h
  cases e with
  | configEntryAuthFailed m => exact Or.inl ⟨m, rfl⟩
  | updateFailed m => exact Or.inr ⟨m, rfl⟩

/-- C3 witness: the classification applied at a concrete connection error. -/
theorem c3_witness :
    (∃ m, (UpdateError.updateFailed "Connection error: boom") = .configEntryAuthFailed m) ∨
    (∃ m, (UpdateError.updateFailed "Connection error: boom") = .updateFailed m) :=
  c3_error_classification.2.2.2.2.2.2 (.error (.rainsoftConnection "boom")) _
    (c3_error_classification.2.1 "boom")

/-- C8: `_safe_int` is total: `None`, unparsable strings, lists and dicts
all yield the default 0 without raising, while ints, bools and parsable
numeric strings yield the corresponding integer. -/
theorem c8_safe_int_total :
    (safe_int PyVal.none = 0) ∧
    (∀ s, pyStrToInt? s = Option.none → safe_int (PyVal.str s) = 0) ∧
    (∀ xs, safe_int (PyVal.list xs) = 0) ∧
    (∀ kvs, safe_int (PyVal.dict kvs) = 0) ∧
    (∀ n, safe_int (PyVal.int n) = n) ∧
    (∀ bv, safe_int (PyVal.bool bv) = if bv then 1 else 0) ∧
    (∀ s n, pyStrToInt? s = some n → safe_int (PyVal.str s) = n) := by
  refine ⟨rfl, ?_, fun xs => rfl, fun kvs => rfl, fun n => rfl, fun bv => rfl, ?_⟩
  · intro s h
    simp [safe_int, pyIntConv, h]
  · intro s n h
    simp [safe_int, pyIntConv, h]

/-- C8 witness: the conversion at a non-numeric and at a numeric string. -/
theorem c8_witness :
    safe_int (PyVal.str "abc") = 0 ∧ safe_int (PyVal.str " 42 ") = 42 :=
  ⟨c8_safe_int_total.2.1 "abc" (by decide), c8_safe_int_total.2.2.2.2.2.2 " 42 " 42 (by decide)⟩

/-- A successful normalization produces exactly the mapped record with
`regeneration_active` appended. -/
theorem normalize_ok_shape (d r : PyDict) (h : normalize_device_data d = .ok r) :
    ∃ lower, r = dictInsert (normalize_base d) "regeneration_active"
      (.bool (strContains lower "regenerat")) := by
  unfold normalize_device_data at h
  split at h
  · exact absurd h (by simp)
  · rename_i lower heq
    cases h
    exact ⟨lower, rfl⟩

/-- The status value a successful normalization lowercased is the raw
`systemStatusName` (default "unknown"), and lowering it succeeded. -/
theorem normalize_ok_status (d r : PyDict) (h : normalize_device_data d = .ok r) :
    ∃ lower,
      (if pyTruthy (pyGetD d "systemStatusName" (PyVal.str "unknown")) then
        pyLower (pyGetD d "systemStatusName" (PyVal.str "unknown"))
      else .ok "") = .ok lower := by
  unfold normalize_device_data at h
  split at h
  · exact absurd h (by simp)
  · rename_i lower heq
    exact ⟨lower, heq⟩

/-- Evaluation of the alert projection when the stored status is a string. -/
theorem alert_is_on_str (data : PyDict) (s : String)
    (hv : pyGetD data "system_status" (PyVal.str "normal") = PyVal.str s) :
    alert_is_on data = .ok ((!(s == "")) && (!(strLower s == "normal"))) := by
  simp only [alert_is_on, hv]
  by_cases hs : s = ""
  · subst hs; simp [pyTruthy]
  · simp [pyTruthy, hs]

/-- C4 counterexample: a device whose listing carries an unparsable
`saltLbs` value commits that raw string, not the integer 0, as the stored
salt level — the listing-based normalization performs no safe-int
conversion. -/
theorem c4_counterexample :
    ∃ r, normalize_device_data [("id", PyVal.str "d1"), ("saltLbs", PyVal.str "abc")] = .ok r ∧
      pyGet? r "salt_level" = some (PyVal.str "abc") ∧
      ∀ n : Int, pyGetD r "salt_level" PyVal.none ≠ PyVal.int n := by
  refine ⟨_, rfl, rfl, ?_⟩
  intro n h
  exact PyVal.noConfusion h

/-- C4 amended: the committed salt-level field equals the raw `saltLbs`
listing value whenever that key is present — whatever its type — and the
integer 0 exactly when the key is absent; the normalization itself stores it
without raising on a malformed value. -/
theorem c4_salt_passthrough (d r : PyDict) (h : normalize_device_data d = .ok r) :
    pyGet? r "salt_level" = some (pyGetD d "saltLbs" (PyVal.int 0)) := by
  obtain ⟨lower, rfl⟩ := normalize_ok_shape d r h
  rfl

/-- C4 witness: the passthrough applied to an empty listing entry. -/
theorem c4_witness :
    ∃ r, normalize_device_data [] = .ok r ∧
      pyGet? r "salt_level" = some (pyGetD [] "saltLbs" (PyVal.int 0)) :=
  ⟨_, rfl, c4_salt_passthrough [] _ rfl⟩

/-- C6: For every record committed by a successful normalization, the alert
projection evaluates without raising, and when the raw status is a string it
is on exactly when the status is nonempty and its lowercasing differs from
"normal" (the empty string — falsy — reports no alert). -/
theorem c6_alert_iff (d r : PyDict) (h : normalize_device_data d = .ok r) :
    (∃ bv, alert_is_on r = .ok bv) ∧
    (∀ s, pyGetD d "systemStatusName" (PyVal.str "unknown") = PyVal.str s →
      alert_is_on r = .ok ((!(s == "")) && (!(strLower s == "normal")))) := by
  obtain ⟨lower, hlow⟩ := normalize_ok_status d r h
  obtain ⟨lower2, rfl⟩ := normalize_ok_shape d r h
  have hst : pyGetD (dictInsert (normalize_base d) "regeneration_active"
      (.bool (strContains lower2 "regenerat"))) "system_status" (PyVal.str "normal") =
      pyGetD d "systemStatusName" (PyVal.str "unknown") := rfl
  constructor
  · by_cases htr : pyTruthy (pyGetD d "systemStatusName" (PyVal.str "unknown"))
    · rw [if_pos htr] at hlow
      cases hsv : pyGetD d "systemStatusName" (PyVal.str "unknown") with
      | str s => exact ⟨_, alert_is_on_str _ s (hst.trans hsv)⟩
      | none => rw [hsv] at hlow; exact absurd hlow (by simp [pyLower])
      | bool b => rw [hsv] at hlow; exact absurd hlow (by simp [pyLower])
      | int n => rw [hsv] at hlow; exact absurd hlow (by simp [pyLower])
      | list xs => rw [hsv] at hlow; exact absurd hlow (by simp [pyLower])
      | dict kvs => rw [hsv] at hlow; exact absurd hlow (by simp [pyLower])
    · refine ⟨false, ?_⟩
      simp only [alert_is_on, hst]
      simp [htr]
  · intro s hs
    exact alert_is_on_str _ s (hst.trans hs)

/-- C6 witness: a committed "Regenerating" status reports an alert. -/
theorem c6_witness :
    ∃ r, normalize_device_data [("systemStatusName", PyVal.str "Regenerating")] = .ok r ∧
      alert_is_on r = .ok ((!("Regenerating" == "")) && (!(strLower "Regenerating" == "normal"))) :=
  ⟨_, rfl, (c6_alert_iff [("systemStatusName", PyVal.str "Regenerating")] _ rfl).2
      "Regenerating" rfl⟩

/-- C9: Every record produced by the listing-based normalization has both
`last_regeneration` and `firmware_version` stored as `None`, so the Last
Regeneration projection yields no value on every committed record. -/
theorem c9_last_regen_always_none (d r : PyDict) (h : normalize_device_data d = .ok r) :
    pyGet? r "last_regeneration" = some PyVal.none ∧
    pyGet? r "firmware_version" = some PyVal.none ∧
    last_regeneration_native_value r = .ok Option.none := by
  obtain ⟨lower, rfl⟩ := normalize_ok_shape d r h
  exact ⟨rfl, rfl, rfl⟩

/-- C9 witness: the invariant at a concrete listing entry that carries a
date-like field the record nevertheless nulls out. -/
theorem c9_witness :
    ∃ r, normalize_device_data [("id", PyVal.str "d1"),
        ("regenTime", PyVal.str "2024-01-15")] = .ok r ∧
      last_regeneration_native_value r = .ok Option.none :=
  ⟨_, rfl, (c9_last_regen_always_none [("id", PyVal.str "d1"),
      ("regenTime", PyVal.str "2024-01-15")] _ rfl).2.2⟩

/-- C10: For a device id absent from the snapshot the device data defaults
to the empty dict, and every binary projection evaluates without raising and
reports inactive: the alert projection defaults the status to "normal", the
salt-low projection defaults the salt level to 100 (not 0, so 100 < 20 is
false), and the regeneration projection defaults to `False`. -/
theorem c10_missing_device (snap : Snapshot) (deviceId : String)
    (h : snap.find? (fun kv => kv.1 = deviceId) = Option.none) :
    get_device_data snap deviceId = [] ∧
    alert_is_on [] = .ok false ∧
    pyGetD [] "salt_level" (PyVal.int 100) = PyVal.int 100 ∧
    salt_low_is_on [] = .ok false ∧
    regeneration_is_on [] = PyVal.bool false := by
  refine ⟨?_, rfl, rfl, rfl, rfl⟩
  simp [get_device_data, h]

/-- C10 witness: the projections on a device id missing from a concrete
snapshot. -/
theorem c10_witness :
    get_device_data [] "absent" = [] ∧
    alert_is_on [] = .ok false ∧
    pyGetD [] "salt_level" (PyVal.int 100) = PyVal.int 100 ∧
    salt_low_is_on [] = .ok false ∧
    regeneration_is_on [] = PyVal.bool false :=
  c10_missing_device [] "absent" rfl

/-- C7: The regeneration-date projections parse an ISO date string to its
date, truncate a date-time string (after the `Z` → `+00:00` rewrite) to its
date component, yield no value for an absent field or an unparsable string
such as "garbage", and never raise on any stored string. -/
theorem c7_date_projection :
    (next_regeneration_native_value [("next_regeneration", PyVal.str "2024-01-15")] =
      .ok (some ⟨2024, 1, 15⟩)) ∧
    (next_regeneration_native_value [("next_regeneration", PyVal.str "2024-01-15T08:00:00Z")] =
      .ok (some ⟨2024, 1, 15⟩)) ∧
    (next_regeneration_native_value [("next_regeneration", PyVal.str "garbage")] =
      .ok Option.none) ∧
    (next_regeneration_native_value [] = .ok Option.none) ∧
    (last_regeneration_native_value [("last_regeneration", PyVal.str "2024-01-15")] =
      .ok (some ⟨2024, 1, 15⟩)) ∧
    (last_regeneration_native_value [("last_regeneration", PyVal.str "2024-01-15T08:00:00Z")] =
      .ok (some ⟨2024, 1, 15⟩)) ∧
    (last_regeneration_native_value [("last_regeneration", PyVal.str "garbage")] =
      .ok Option.none) ∧
    (last_regeneration_native_value [] = .ok Option.none) ∧
    (∀ key data s, pyGetD data key PyVal.none = PyVal.str s →
      ∃ o, regen_date_native_value key data = .ok o) := by
  refine ⟨rfl, rfl, rfl, rfl, rfl, rfl, rfl, rfl, ?_⟩
  intro key data s hv
  simp only [regen_date_native_value, hv]
  split
  · split
    · exact ⟨_, rfl⟩
    · exact ⟨_, rfl⟩
  · exact ⟨_, rfl⟩

/-- C7 witness: the no-raise clause at a concrete stored string containing a
space. -/
theorem c7_witness :
    ∃ o, regen_date_native_value "next_regeneration"
      [("next_regeneration", PyVal.str "not a date")] = .ok o :=
  c7_date_projection.2.2.2.2.2.2.2.2 "next_regeneration"
    [("next_regeneration", PyVal.str "not a date")] "not a date" rfl

/-- A pair found in a dict after an insertion was already present or carries
the inserted key. -/
theorem dictInsert_mem {α : Type} (acc : List (String × α)) (k : String) (v : α)
    (a : String) (b : α) (h : (a, b) ∈ dictInsert acc k v) : (a, b) ∈ acc ∨ a = k := by
  induction acc with
  | nil =>
    simp only [dictInsert, List.mem_singleton, Prod.mk.injEq] at h
    exact Or.inr h.1
  | cons kv rest ih =>
    obtain ⟨k2, v2⟩ := kv
    simp only [dictInsert] at h
    split at h
    · rename_i hk
      rcases List.mem_cons.mp h with h1 | h1
      · exact Or.inr ((Prod.mk.injEq .. ▸ h1).1.trans hk)
      · exact Or.inl (List.mem_cons_of_mem _ h1)
    · rcases List.mem_cons.mp h with h1 | h1
      · exact Or.inl (h1 ▸ List.mem_cons_self _ _)
      · rcases ih h1 with h2 | h2
        · exact Or.inl (List.mem_cons_of_mem _ h2)
        · exact Or.inr h2

/-- Inserting into a dict never empties it. -/
theorem dictInsert_ne_nil {α : Type} (acc : List (String × α)) (k : String) (v : α) :
    dictInsert acc k v ≠ [] := by
  cases acc with
  | nil => simp [dictInsert]
  | cons kv rest =>
    obtain ⟨k2, v2⟩ := kv
    simp only [dictInsert]
    split <;> simp

/-- Insertion never shrinks a dict. -/
theorem dictInsert_length_ge {α : Type} (acc : List (String × α)) (k : String) (v : α) :
    acc.length ≤ (dictInsert acc k v).length := by
  induction acc with
  | nil => simp [dictInsert]
  | cons kv rest ih =>
    obtain ⟨k2, v2⟩ := kv
    simp only [dictInsert]
    split
    · simp
    · simpa using ih

/-- The per-device loop never shrinks its accumulator. -/
theorem update_loop_ok_length (ds : List PyDict) (acc snap : Snapshot)
    (h : update_loop ds acc = .ok snap) : acc.length ≤ snap.length := by
  induction ds generalizing acc with
  | nil =>
    simp only [update_loop] at h
    cases h
    exact Nat.le_refl _
  | cons d rest ih =>
    simp only [update_loop] at h
    split at h
    · split at h
      · exact absurd h (by simp)
      · exact le_trans (dictInsert_length_ge ..) (ih _ h)
    · exact ih _ h

/-- Every pair the per-device loop adds to its accumulator is keyed by the
string form of a truthy device id from the processed list. -/
theorem update_loop_ok_mem (ds : List PyDict) (acc snap : Snapshot)
    (h : update_loop ds acc = .ok snap) (a : String) (b : PyDict)
    (hmem : (a, b) ∈ snap) :
    (a, b) ∈ acc ∨ ∃ d ∈ ds, pyTruthy (pyGetD d "id" PyVal.none) ∧
      pyStr (pyGetD d "id" PyVal.none) = a := by
  induction ds generalizing acc with
  | nil =>
    simp only [update_loop] at h
    cases h
    exact Or.inl hmem
  | cons d rest ih =>
    simp only [update_loop] at h
    split at h
    · rename_i ht
      split at h
      · exact absurd h (by simp)
      · rcases ih _ h with h1 | h1
        · rcases dictInsert_mem _ _ _ _ _ h1 with h2 | h2
          · exact Or.inl h2
          · exact Or.inr ⟨d, List.mem_cons_self _ _, ht, h2.symm⟩
        · obtain ⟨d2, hd2, h2⟩ := h1
          exact Or.inr ⟨d2, List.mem_cons_of_mem _ hd2, h2⟩
    · rcases ih _ h with h1 | h1
      · exact Or.inl h1
      · obtain ⟨d2, hd2, h2⟩ := h1
        exact Or.inr ⟨d2, List.mem_cons_of_mem _ hd2, h2⟩

/-- When every device lacks a truthy id, the loop returns its accumulator
unchanged. -/
theorem update_loop_all_falsy (ds : List PyDict) (acc : Snapshot)
    (h : ∀ d ∈ ds, ¬ pyTruthy (pyGetD d "id" PyVal.none)) :
    update_loop ds acc = .ok acc := by
  induction ds with
  | nil => rfl
  | cons d rest ih =>
    simp only [update_loop]
    rw [if_neg (by simpa using h d (List.mem_cons_self _ _))]
    exact ih (fun d2 hd2 => h d2 (List.mem_cons_of_mem _ hd2))

/-- A loop run that produced the empty snapshot processed no device with a
truthy id. -/
theorem update_loop_ok_nil (ds : List PyDict) (acc : Snapshot)
    (h : update_loop ds acc = .ok []) :
    ∀ d ∈ ds, ¬ pyTruthy (pyGetD d "id" PyVal.none) := by
  induction ds generalizing acc with
  | nil => simp
  | cons d rest ih =>
    intro d2 hd2
    simp only [update_loop] at h
    by_cases ht : pyTruthy (pyGetD d "id" PyVal.none)
    · rw [if_pos ht] at h
      cases hn : normalize_device_data d with
      | error e => rw [hn] at h; exact absurd h (by simp)
      | ok n =>
        rw [hn] at h
        have hlen := update_loop_ok_length _ _ _ h
        have hnil : dictInsert acc (pyStr (pyGetD d "id" PyVal.none)) n = [] :=
          List.length_eq_zero.mp (Nat.le_zero.mp hlen)
        exact absurd hnil (dictInsert_ne_nil _ _ _)
    · rw [if_neg ht] at h
      rcases List.mem_cons.mp hd2 with h1 | h1
      · exact h1 ▸ ht
      · exact ih _ h d2 h1

/-- A loop failure is a normalization failure of one of the devices. -/
theorem update_loop_error (ds : List PyDict) (acc : Snapshot) (e : PyExc)
    (h : update_loop ds acc = .error e) :
    ∃ d ∈ ds, normalize_device_data d = .error e := by
  induction ds generalizing acc with
  | nil => exact absurd h (by simp [update_loop])
  | cons d rest ih =>
    simp only [update_loop] at h
    split at h
    · split at h
      · rename_i heq
        cases h
        exact ⟨d, List.mem_cons_self _ _, heq⟩
      · obtain ⟨d2, hd2, h2⟩ := ih _ h
        exact ⟨d2, List.mem_cons_of_mem _ hd2, h2⟩
    · obtain ⟨d2, hd2, h2⟩ := ih _ h
      exact ⟨d2, List.mem_cons_of_mem _ hd2, h2⟩

/-- A normalization failure never classifies to the no-device-data message:
it is an `AttributeError` whose wrapped message names a missing attribute. -/
theorem normalize_error_not_nodata (d : PyDict) (e : PyExc)
    (h : normalize_device_data d = .error e) :
    classify_exc e ≠ .updateFailed "Unexpected error: No device data available" := by
  unfold normalize_device_data at h
  split at h
  · rename_i e2 heq
    cases h
    split at heq
    · cases hsv : pyGetD (normalize_base d) "system_status" PyVal.none with
      | str s => rw [hsv] at heq; exact absurd heq (by simp [pyLower])
      | none =>
        rw [hsv] at heq
        simp only [pyLower, pyTypeName] at heq
        cases heq; decide
      | bool b =>
        rw [hsv] at heq
        simp only [pyLower, pyTypeName] at heq
        cases heq; decide
      | int n =>
        rw [hsv] at heq
        simp only [pyLower, pyTypeName] at heq
        cases heq; decide
      | list xs =>
        rw [hsv] at heq
        simp only [pyLower, pyTypeName] at heq
        cases heq; decide
      | dict kvs =>
        rw [hsv] at heq
        simp only [pyLower, pyTypeName] at heq
        cases heq; decide
    · exact absurd heq (by simp)
  · exact absurd h (by simp)

/-- C5 counterexample: with one device that lacks an id, the cycle fails,
but the surfaced `UpdateFailed` message is the re-wrapped
"Unexpected error: No device data available" — the claimed exact message
"No device data available" does not match what the cycle raises, because the
inner `UpdateFailed` is caught by the catch-all handler of the method. -/
theorem c5_counterexample :
    async_update_data (.ok [[]]) =
      .error (.updateFailed "Unexpected error: No device data available") ∧
    UpdateError.updateFailed "Unexpected error: No device data available" ≠
      UpdateError.updateFailed "No device data available" :=
  ⟨rfl, by decide⟩

/-- C5 amended: when `listDevices` succeeds, an empty device list commits an
empty snapshot and the cycle succeeds; every committed entry is keyed by the
string form of a truthy device id from the list (entries lacking one are
never stored); and the cycle fails with
`UpdateFailed("Unexpected error: No device data available")` — the message
the catch-all wrap gives the inner `UpdateFailed("No device data
available")` — exactly when the device list was non-empty and every entry
lacked a usable id. -/
theorem c5_empty_skip_fail :
    (async_update_data (.ok []) = .ok []) ∧
    (∀ devices snap, update_body devices = .ok snap →
      ∀ a b, (a, b) ∈ snap →
        ∃ d ∈ devices, pyTruthy (pyGetD d "id" PyVal.none) ∧
          pyStr (pyGetD d "id" PyVal.none) = a) ∧
    (∀ devices, async_update_data (.ok devices) =
        .error (.updateFailed "Unexpected error: No device data available") ↔
      devices ≠ [] ∧ ∀ d ∈ devices, ¬ pyTruthy (pyGetD d "id" PyVal.none)) := by
  refine ⟨rfl, ?_, ?_⟩
  · intro devices snap h a b hmem
    unfold update_body at h
    split at h
    · cases h
      exact absurd hmem (by simp)
    · split at h
      · exact absurd h (by simp)
      · rename_i dd hloop
        split at h
        · exact absurd h (by simp)
        · cases h
          rcases update_loop_ok_mem _ _ _ hloop a b hmem with h1 | h1
          · exact absurd h1 (by simp)
          · exact h1
  · intro devices
    constructor
    · intro h
      by_cases hne : devices = []
      · subst hne
        exact Except.noConfusion h
      · refine ⟨hne, ?_⟩
        unfold async_update_data at h
        split at h
        · exact Except.noConfusion h
        · rename_i e heq
          injection h with hclass
          change update_body devices = .error e at heq
          unfold update_body at heq
          rw [if_neg (by simpa using hne)] at heq
          split at heq
          · rename_i e2 hloop
            injection heq with h3
            obtain ⟨d2, _, hd2⟩ := update_loop_error _ _ _ hloop
            exact absurd (h3 ▸ hclass) (normalize_error_not_nodata _ _ hd2)
          · rename_i dd hloop
            split at heq
            · rename_i hdd
              have hdde : dd = [] := List.isEmpty_iff.mp hdd
              exact update_loop_ok_nil _ _ (hdde ▸ hloop)
            · exact Except.noConfusion heq
    · rintro ⟨hne, hfalsy⟩
      have hloop := update_loop_all_falsy devices [] hfalsy
      unfold async_update_data update_body
      simp only [Except.bind]
      rw [if_neg (by simpa using hne), hloop]
      rfl

/-- C5 witness: the amended failure condition applied at a concrete
one-device list whose entry has the falsy id `None`. -/
theorem c5_witness :
    async_update_data (.ok [[("id", PyVal.none)]]) =
      .error (.updateFailed "Unexpected error: No device data available") :=
  (c5_empty_skip_fail.2.2 [[("id", PyVal.none)]]).mpr
    ⟨by simp, by intro d hd; rw [List.mem_singleton.mp hd]; decide⟩

end Watersoft
